import Mathlib

/-
Verification of the image-converter single-page application (src/src/App.tsx)
against its natural-language specification.

The whole conversion pipeline lives in the React component `App`:
  - state hooks (lines 13-17): isDarkMode, isConverting, selectedFile,
    convertedImage, targetFormat;
  - `onDrop` (lines 19-24) and the dropzone configuration (lines 26-32);
  - `convertImage` (lines 34-68): decode via a platform `Image` element
    (onload/onerror), draw onto a canvas sized to the image, encode via
    `canvas.toBlob`, store `{ url, format }` on success, log on failure;
  - the render (lines 75-223), of which the download anchor (lines 154-161)
    and the format selector (lines 111-125) matter here.

Platform primitives (Image decoding, canvas, toBlob, createObjectURL) are not
repository code; they enter the model as parameters or as definitions carrying
their standard semantics, documented at each definition.
-/

namespace ImageConverter

/-- The `ImageFormat` union type of App.tsx line 5: the five supported MIME
values. -/
inductive ImageFormat where
  | jpeg
  | png
  | webp
  | gif
  | bmp
deriving DecidableEq, Repr

/-- The MIME string each `ImageFormat` variant denotes (App.tsx line 5). -/
def ImageFormat.mime : ImageFormat → String
  | .jpeg => "image/jpeg"
  | .png => "image/png"
  | .webp => "image/webp"
  | .gif => "image/gif"
  | .bmp => "image/bmp"

/-- The `ConversionResult` interface of App.tsx lines 7-10: a blob URL and the
format it was requested as.  These are its only fields. -/
structure ConversionResult where
  url : String
  format : ImageFormat
deriving DecidableEq, Repr

/-- The field names of the `ConversionResult` interface, exactly as declared in
App.tsx lines 7-10. -/
def conversionResultFields : List String := ["url", "format"]

/-- One RGBA pixel of a decoded raster; each channel is a byte value. -/
structure Pixel where
  r : Nat
  g : Nat
  b : Nat
  a : Nat
deriving DecidableEq, Repr

/-- A decoded image as the platform `Image` element exposes it to the code:
intrinsic width and height, and the underlying pixel data (row-major RGBA). -/
structure Img where
  width : Nat
  height : Nat
  pixels : List Pixel
deriving DecidableEq, Repr

/-- A dropped file as the dropzone hands it to `onDrop`: a name and raw
bytes.  The code never inspects either; it only passes the file to
`URL.createObjectURL` for the platform decoder. -/
structure SourceFile where
  fname : String
  bytes : List Nat
deriving DecidableEq, Repr

/-- The value the platform passes to `image.onerror` and hence the value the
decode promise rejects with (App.tsx line 45): a DOM event.  The platform
fires the same bare error event for every failure cause; it carries no
information about why decoding failed. -/
structure LoadEvent where
  eventType : String
deriving DecidableEq, Repr

/-- The component state of App.tsx lines 13-17. -/
structure AppState where
  isDarkMode : Bool
  isConverting : Bool
  selectedFile : Option SourceFile
  convertedImage : Option ConversionResult
  targetFormat : ImageFormat
deriving DecidableEq, Repr

/-- The canvas after lines 49-51 of App.tsx: its width and height are assigned
from the decoded image, and `ctx?.drawImage` paints the image when
`getContext` returned a context (`drawn = some img`), or leaves the canvas
blank when it returned null (`drawn = none`). -/
structure Canvas where
  width : Nat
  height : Nat
  drawn : Option Img
deriving DecidableEq, Repr

/-- The blob `canvas.toBlob` delivers on success.  Standard platform
semantics: `toBlob` serializes the current canvas bitmap into the requested
MIME type, so the encoded image has exactly the canvas's width and height and
re-decoding the blob recovers those dimensions.  The model records them on the
blob together with the format it was encoded as. -/
structure Blob where
  width : Nat
  height : Nat
  format : ImageFormat
deriving DecidableEq, Repr

/-- Model of the platform `canvas.toBlob` call at App.tsx lines 53-57.
`toBlob` may deliver null to its callback (modelled by `ok = false`); when it
delivers a blob, that blob encodes the current canvas at the canvas's
dimensions in the requested format. -/
def canvasToBlob (ok : Bool) (c : Canvas) (fmt : ImageFormat) : Option Blob :=
  if ok then some { width := c.width, height := c.height, format := fmt } else none

/-- Model of re-decoding an encoded blob: standard platform semantics recover
the encoded bitmap's dimensions. -/
def decodeBlobDims (b : Blob) : Nat × Nat := (b.width, b.height)

/-- The quality argument the code passes to `canvas.toBlob`.  App.tsx lines
53-57 call `canvas.toBlob(callback, targetFormat)` with exactly two arguments
for every target format: the optional third quality argument is never
supplied, so it is `none` regardless of the format. -/
def toBlobQualityArg (_fmt : ImageFormat) : Option Nat := none

/-- How one call to `convertImage` (App.tsx lines 34-68) can end.

* `noFile`: the guard `if (!selectedFile) return` fired (line 35); the state
  is returned untouched.
* `decodeFailed`: the decode promise rejected (image.onerror, line 45), the
  `catch` block logged `console.error('Error converting image:', error)`
  (line 64) and the `finally` block cleared `isConverting` (line 66).
  `logged` records the message string and the rejection value.
* `hung`: `canvas.toBlob` delivered a null blob.  The promise executor at
  lines 53-57 calls `resolve` only when the blob is non-null and never calls
  `reject`, so the awaited promise never settles, the async function stays
  suspended forever, and neither the `catch` nor the `finally` block runs:
  `s` is the state at suspension (isConverting still true) and `canvas` the
  canvas that was handed to `toBlob`.
* `done`: a blob was delivered; `setConvertedImage` stored
  `{ url: URL.createObjectURL(blob), format: targetFormat }` (lines 59-62)
  and `finally` cleared `isConverting`. -/
inductive Outcome where
  | noFile (s : AppState)
  | decodeFailed (s : AppState) (logged : String × LoadEvent)
  | hung (s : AppState) (canvas : Canvas)
  | done (s : AppState) (canvas : Canvas) (blob : Blob)
deriving DecidableEq, Repr

/-- The component state after the call: the final state for the settled
outcomes, the state at suspension for `hung`. -/
def Outcome.state : Outcome → AppState
  | .noFile s => s
  | .decodeFailed s _ => s
  | .hung s _ => s
  | .done s _ _ => s

/-- What `console.error` was given, when the catch block ran. -/
def Outcome.loggedError : Outcome → Option (String × LoadEvent)
  | .decodeFailed _ logged => some logged
  | _ => none

/-- The body of `convertImage` past the guard, for a call with a selected
file: lines 37-67 of App.tsx.  `setIsConverting(true)` has run; `decoded` is
how the platform settled the decode promise of lines 43-47 (`onload` with the
decoded image, or `onerror` with the rejection event).  On decode success the
canvas is sized to the image (lines 49-50), `ctx?.drawImage` paints it when a
2d context exists (line 51), and `canvas.toBlob` is invoked on the canvas
with the target format (lines 53-57); see `Outcome` for the three exits. -/
def runPipeline (s : AppState) (decoded : Except LoadEvent Img)
    (ctxOk : Bool) (blobOk : Bool) (urlOf : Blob → String) : Outcome :=
  match decoded with
  | .error e =>
      .decodeFailed { s with isConverting := false } ("Error converting image:", e)
  | .ok img =>
    let canvas : Canvas :=
      { width := img.width, height := img.height,
        drawn := if ctxOk then some img else none }
    match canvasToBlob blobOk canvas s.targetFormat with
    | none => .hung { s with isConverting := true } canvas
    | some blob =>
        .done { s with
                  convertedImage := some { url := urlOf blob, format := s.targetFormat },
                  isConverting := false }
              canvas blob

/-- The `convertImage` handler of App.tsx lines 34-68, as a function of the
component state and of the platform's behaviour on this call:

* `load`: the platform `Image` decoder — `load f = .ok img` when `onload`
  fires for the object URL of `f` with decoded image `img`, and
  `load f = .error e` when `onerror` fires with event `e` (lines 43-47);
* `ctxOk`: whether `canvas.getContext('2d')` (line 41) returned a context
  rather than null — `ctx?.drawImage` (line 51) draws only in that case;
* `blobOk`: whether `canvas.toBlob` (lines 53-57) delivers a blob rather
  than null to its callback;
* `urlOf`: the platform `URL.createObjectURL` for the produced blob
  (line 60). -/
def convertImage (s : AppState) (load : SourceFile → Except LoadEvent Img)
    (ctxOk : Bool) (blobOk : Bool) (urlOf : Blob → String) : Outcome :=
  match s.selectedFile with
  | none => .noFile s
  | some f => runPipeline s (load f) ctxOk blobOk urlOf

/-- The `onDrop` callback of App.tsx lines 19-24: when at least one file was
accepted, the first one becomes the selected file and any previous conversion
result is cleared; otherwise nothing changes. -/
def onDrop (s : AppState) (acceptedFiles : List SourceFile) : AppState :=
  match acceptedFiles with
  | [] => s
  | f :: _ => { s with selectedFile := some f, convertedImage := none }

/-- The `onChange` handler of the format selector (App.tsx line 113). -/
def setTargetFormat (s : AppState) (fmt : ImageFormat) : AppState :=
  { s with targetFormat := fmt }

/-- The source file extensions the dropzone accepts (App.tsx line 29). -/
def acceptedExtensions : List String :=
  [".png", ".jpg", ".jpeg", ".gif", ".bmp", ".webp"]

/-- The `multiple` option of the dropzone configuration (App.tsx line 31). -/
def dropzoneMultiple : Bool := false

/-- The value of `targetFormat.split('/')[1]` for each of the five closed MIME
strings of App.tsx line 5 (the part after the slash). -/
def ImageFormat.mimeSubpart : ImageFormat → String
  | .jpeg => "jpeg"
  | .png => "png"
  | .webp => "webp"
  | .gif => "gif"
  | .bmp => "bmp"

/-- The `download` attribute of the download anchor (App.tsx line 156),
rendered only when `convertedImage` is present (line 147).  The code builds
the name from the current `targetFormat` state —
`converted.${targetFormat.split('/')[1]}` — not from the stored
`convertedImage.format`. -/
def downloadName (s : AppState) : Option String :=
  s.convertedImage.map (fun _ => "converted." ++ s.targetFormat.mimeSubpart)

/-! Concrete fixtures used by witnesses and counterexamples. -/

/-- A concrete dropped file. -/
def sampleFile : SourceFile := { fname := "photo.png", bytes := [137, 80, 78, 71] }

/-- A concrete byte buffer that is not a valid image in any codec. -/
def malformedFile : SourceFile := { fname := "junk.png", bytes := [0, 1, 2, 3] }

/-- A concrete byte buffer in a recognizable but unsupported codec (TIFF
little-endian signature), a failure cause different from malformedness. -/
def tiffFile : SourceFile := { fname := "photo.tiff", bytes := [73, 73, 42, 0] }

/-- The bare DOM event the platform fires on image load failure; the same
event regardless of the failure cause. -/
def errorEvent : LoadEvent := { eventType := "error" }

/-- A platform decoder behaviour that rejects every file (onerror fires). -/
def loadReject : SourceFile → Except LoadEvent Img := fun _ => Except.error errorEvent

/-- A concrete fully opaque 1x1 image. -/
def opaqueImg : Img := { width := 1, height := 1, pixels := [{ r := 10, g := 20, b := 30, a := 255 }] }

/-- A concrete 1x1 image with a pixel of alpha 128 < 255. -/
def alphaImg : Img := { width := 1, height := 1, pixels := [{ r := 10, g := 20, b := 30, a := 128 }] }

/-- A concrete 100000 x 100000 image: 10^10 pixels, so a raster buffer of
4 * 10^10 bytes, beyond any plausible size ceiling (and beyond what
width*height*4 can represent in 32 bits). -/
def hugeImg : Img := { width := 100000, height := 100000, pixels := [] }

/-- A platform decoder behaviour that decodes every file to `opaqueImg`. -/
def loadOpaque : SourceFile → Except LoadEvent Img := fun _ => Except.ok opaqueImg

/-- A concrete `URL.createObjectURL` behaviour. -/
def sampleUrl : Blob → String := fun _ => "blob:c0ffee"

/-- A concrete state with a file selected and PNG as target. -/
def sampleState : AppState :=
  { isDarkMode := false, isConverting := false, selectedFile := some sampleFile,
    convertedImage := none, targetFormat := ImageFormat.png }

/-- `sampleState` with the malformed file selected. -/
def malformedState : AppState := { sampleState with selectedFile := some malformedFile }

/-- `sampleState` with the unsupported-codec file selected. -/
def tiffState : AppState := { sampleState with selectedFile := some tiffFile }

/-- `sampleState` with JPEG as the target format. -/
def jpegState : AppState := { sampleState with targetFormat := ImageFormat.jpeg }

/-- A platform decoder behaviour that decodes every file to `alphaImg`. -/
def loadAlpha : SourceFile → Except LoadEvent Img := fun _ => Except.ok alphaImg

/-- A platform decoder behaviour that decodes every file to `hugeImg`. -/
def loadHuge : SourceFile → Except LoadEvent Img := fun _ => Except.ok hugeImg

/-- The state after a successful conversion of `sampleFile` to PNG. -/
def pngConvertedState : AppState :=
  (convertImage sampleState loadOpaque true true sampleUrl).state

/-- The state after that successful PNG conversion followed by the user
switching the selector to JPEG without converting again (the selector's
onChange only updates `targetFormat`; `convertedImage` is cleared only by
`onDrop`). -/
def staleState : AppState := setTargetFormat pngConvertedState ImageFormat.jpeg

/-! Theorems.  First two unfolding lemmas, then one theorem per claim. -/

/-- With a file selected, `convertImage` runs the pipeline on the platform's
decode outcome for that file. -/
theorem convertImage_eq_run (s : AppState) (f : SourceFile)
    (load : SourceFile → Except LoadEvent Img) (ctxOk blobOk : Bool) (urlOf : Blob → String)
    (hf : s.selectedFile = some f) :
    convertImage s load ctxOk blobOk urlOf = runPipeline s (load f) ctxOk blobOk urlOf := by
  unfold convertImage
  rw [hf]

/-- With no file selected, `convertImage` exits through the guard. -/
theorem convertImage_eq_noFile (s : AppState)
    (load : SourceFile → Except LoadEvent Img) (ctxOk blobOk : Bool) (urlOf : Blob → String)
    (h : s.selectedFile = none) :
    convertImage s load ctxOk blobOk urlOf = Outcome.noFile s := by
  unfold convertImage
  rw [h]

/-- C10: calling `convertImage` when no file is selected is a complete no-op:
whatever the platform would do, the call returns immediately with the state
untouched — the converting flag is never set and the converted result,
selected file and target format are unchanged. -/
theorem c10_no_file_noop (s : AppState) (load : SourceFile → Except LoadEvent Img)
    (ctxOk blobOk : Bool) (urlOf : Blob → String) (h : s.selectedFile = none) :
    convertImage s load ctxOk blobOk urlOf = Outcome.noFile s ∧
    (convertImage s load ctxOk blobOk urlOf).state = s := by
  rw [convertImage_eq_noFile s load ctxOk blobOk urlOf h]
  exact ⟨rfl, rfl⟩

/-- Witness for C10 at a concrete state with no selected file. -/
theorem c10_no_file_noop_witness :
    ({ sampleState with selectedFile := none } : AppState).selectedFile = none ∧
    (convertImage { sampleState with selectedFile := none } loadOpaque true true sampleUrl =
        Outcome.noFile { sampleState with selectedFile := none } ∧
      (convertImage { sampleState with selectedFile := none } loadOpaque true true sampleUrl).state =
        { sampleState with selectedFile := none }) :=
  ⟨rfl, c10_no_file_noop { sampleState with selectedFile := none } loadOpaque true true sampleUrl rfl⟩

/-- C9: when `canvas.toBlob` delivers a null blob, the encode promise never
settles (its executor calls resolve only on a non-null blob and never calls
reject), so `convertImage` neither completes with a result nor reports an
error: the outcome is suspension, with the converting flag still set and the
converted result unchanged. -/
theorem c9_null_blob_hang (s : AppState) (f : SourceFile) (img : Img)
    (load : SourceFile → Except LoadEvent Img) (ctxOk : Bool) (urlOf : Blob → String)
    (hf : s.selectedFile = some f) (hl : load f = Except.ok img) :
    convertImage s load ctxOk false urlOf =
      Outcome.hung { s with isConverting := true }
        { width := img.width, height := img.height,
          drawn := if ctxOk then some img else none } ∧
    (convertImage s load ctxOk false urlOf).state.isConverting = true ∧
    (convertImage s load ctxOk false urlOf).state.convertedImage = s.convertedImage ∧
    (convertImage s load ctxOk false urlOf).loggedError = none := by
  rw [convertImage_eq_run s f load ctxOk false urlOf hf, hl]
  exact ⟨rfl, rfl, rfl, rfl⟩

/-- Witness for C9 at a concrete state, file and decoded image. -/
theorem c9_null_blob_hang_witness :
    sampleState.selectedFile = some sampleFile ∧
    loadOpaque sampleFile = Except.ok opaqueImg ∧
    (convertImage sampleState loadOpaque true false sampleUrl =
        Outcome.hung { sampleState with isConverting := true }
          { width := opaqueImg.width, height := opaqueImg.height,
            drawn := if true then some opaqueImg else none } ∧
      (convertImage sampleState loadOpaque true false sampleUrl).state.isConverting = true ∧
      (convertImage sampleState loadOpaque true false sampleUrl).state.convertedImage =
        sampleState.convertedImage ∧
      (convertImage sampleState loadOpaque true false sampleUrl).loggedError = none) :=
  ⟨rfl, rfl, c9_null_blob_hang sampleState sampleFile opaqueImg loadOpaque true sampleUrl rfl rfl⟩

/-- C8: the dropzone accepts exactly the extensions .png .jpg .jpeg .gif .bmp
.webp, is configured as single-file (`multiple: false`), and `onDrop` uses
only the first accepted file: any further files are ignored, so exactly one
file enters a conversion request. -/
theorem c8_accepted_inputs :
    acceptedExtensions = [".png", ".jpg", ".jpeg", ".gif", ".bmp", ".webp"] ∧
    dropzoneMultiple = false ∧
    ∀ (s : AppState) (f : SourceFile) (rest : List SourceFile),
      (onDrop s (f :: rest)).selectedFile = some f ∧
      onDrop s (f :: rest) = onDrop s [f] := by
  refine ⟨rfl, rfl, fun s f rest => ⟨rfl, rfl⟩⟩

/-- Witness instantiating C8's `onDrop` clause on a two-file drop. -/
theorem c8_accepted_inputs_witness :
    (onDrop sampleState [malformedFile, tiffFile]).selectedFile = some malformedFile ∧
    onDrop sampleState [malformedFile, tiffFile] = onDrop sampleState [malformedFile] :=
  c8_accepted_inputs.2.2 sampleState malformedFile [tiffFile]

/-- C4: for every decoded raster and every target format, when the encode
stage succeeds, re-decoding the produced blob yields the width and height of
the input raster, and the blob is in the requested format.  (The code sizes
the canvas to the decoded image before drawing, and `toBlob` serializes the
canvas at exactly its own dimensions.) -/
theorem c4_roundtrip_dims (s : AppState) (f : SourceFile) (img : Img)
    (load : SourceFile → Except LoadEvent Img) (ctxOk blobOk : Bool) (urlOf : Blob → String)
    (s2 : AppState) (c : Canvas) (b : Blob)
    (hf : s.selectedFile = some f) (hl : load f = Except.ok img)
    (hdone : convertImage s load ctxOk blobOk urlOf = Outcome.done s2 c b) :
    decodeBlobDims b = (img.width, img.height) ∧ b.format = s.targetFormat := by
  rw [convertImage_eq_run s f load ctxOk blobOk urlOf hf, hl] at hdone
  cases blobOk with
  | false => simp [runPipeline, canvasToBlob] at hdone
  | true =>
      simp [runPipeline, canvasToBlob] at hdone
      obtain ⟨h1, h2, h3⟩ := hdone
      subst h3
      exact ⟨rfl, rfl⟩

/-- Witness for C4 at a concrete run: a 1x1 image converted to PNG. -/
theorem c4_roundtrip_dims_witness :
    sampleState.selectedFile = some sampleFile ∧
    loadOpaque sampleFile = Except.ok opaqueImg ∧
    convertImage sampleState loadOpaque true true sampleUrl =
      Outcome.done
        { sampleState with
            convertedImage := some
              { url := sampleUrl { width := 1, height := 1, format := ImageFormat.png },
                format := ImageFormat.png },
            isConverting := false }
        { width := 1, height := 1, drawn := some opaqueImg }
        { width := 1, height := 1, format := ImageFormat.png } ∧
    (decodeBlobDims { width := 1, height := 1, format := ImageFormat.png } =
        (opaqueImg.width, opaqueImg.height) ∧
      Blob.format { width := 1, height := 1, format := ImageFormat.png } =
        sampleState.targetFormat) :=
  ⟨rfl, rfl, rfl,
    c4_roundtrip_dims sampleState sampleFile opaqueImg loadOpaque true true sampleUrl
      { sampleState with
          convertedImage := some
            { url := sampleUrl { width := 1, height := 1, format := ImageFormat.png },
              format := ImageFormat.png },
          isConverting := false }
      { width := 1, height := 1, drawn := some opaqueImg }
      { width := 1, height := 1, format := ImageFormat.png } rfl rfl rfl⟩

/-- C1 counterexample: a concrete conversion whose encode stage fails
(`canvas.toBlob` delivers a null blob).  The claim states the pipeline aborts
at the failing stage and reports the specific error kind (an `EncodeError`)
to the caller.  Instead the run suspends forever: nothing is ever reported
(`loggedError = none`), the converting flag is still set, and the pipeline
never aborts — no `DecodeError`/`EncodeError` value occurs anywhere in the
program's observable behaviour. -/
theorem c1_counterexample :
    convertImage sampleState loadOpaque true false sampleUrl =
      Outcome.hung { sampleState with isConverting := true }
        { width := 1, height := 1, drawn := some opaqueImg } ∧
    (convertImage sampleState loadOpaque true false sampleUrl).loggedError = none ∧
    (convertImage sampleState loadOpaque true false sampleUrl).state.isConverting = true :=
  ⟨rfl, rfl, rfl⟩

/-- C1 amended: when the decode stage fails, the pipeline aborts at that
stage, logging only the fixed generic message with the opaque platform event
(no error-kind taxonomy exists), and no output is produced by the failed
conversion — `convertedImage` is left unchanged; when the encode stage fails
(null blob), the pipeline never settles: no result is stored, nothing is
reported, and the converting flag remains set. -/
theorem c1_error_propagation (s : AppState) (f : SourceFile)
    (load : SourceFile → Except LoadEvent Img) (ctxOk blobOk : Bool) (urlOf : Blob → String)
    (hf : s.selectedFile = some f) :
    (∀ e : LoadEvent, load f = Except.error e →
      convertImage s load ctxOk blobOk urlOf =
        Outcome.decodeFailed { s with isConverting := false } ("Error converting image:", e) ∧
      (convertImage s load ctxOk blobOk urlOf).state.convertedImage = s.convertedImage) ∧
    (∀ img : Img, load f = Except.ok img → blobOk = false →
      convertImage s load ctxOk blobOk urlOf =
        Outcome.hung { s with isConverting := true }
          { width := img.width, height := img.height,
            drawn := if ctxOk then some img else none } ∧
      (convertImage s load ctxOk blobOk urlOf).loggedError = none ∧
      (convertImage s load ctxOk blobOk urlOf).state.convertedImage = s.convertedImage ∧
      (convertImage s load ctxOk blobOk urlOf).state.isConverting = true) := by
  constructor
  · intro e he
    rw [convertImage_eq_run s f load ctxOk blobOk urlOf hf, he]
    exact ⟨rfl, rfl⟩
  · intro img hi hb
    subst hb
    rw [convertImage_eq_run s f load ctxOk false urlOf hf, hi]
    exact ⟨rfl, rfl, rfl, rfl⟩

/-- Witness for the amended C1, exercising both branches at concrete inputs:
a rejected decode on the malformed file, and a null-blob encode on a decoded
image. -/
theorem c1_error_propagation_witness :
    (malformedState.selectedFile = some malformedFile ∧
      loadReject malformedFile = Except.error errorEvent ∧
      (convertImage malformedState loadReject true true sampleUrl =
          Outcome.decodeFailed { malformedState with isConverting := false }
            ("Error converting image:", errorEvent) ∧
        (convertImage malformedState loadReject true true sampleUrl).state.convertedImage =
          malformedState.convertedImage)) ∧
    (sampleState.selectedFile = some sampleFile ∧
      loadOpaque sampleFile = Except.ok opaqueImg ∧
      (convertImage sampleState loadOpaque true false sampleUrl =
          Outcome.hung { sampleState with isConverting := true }
            { width := opaqueImg.width, height := opaqueImg.height,
              drawn := if true then some opaqueImg else none } ∧
        (convertImage sampleState loadOpaque true false sampleUrl).loggedError = none ∧
        (convertImage sampleState loadOpaque true false sampleUrl).state.convertedImage =
          sampleState.convertedImage ∧
        (convertImage sampleState loadOpaque true false sampleUrl).state.isConverting = true)) :=
  ⟨⟨rfl, rfl,
      (c1_error_propagation malformedState malformedFile loadReject true true sampleUrl rfl).1
        errorEvent rfl⟩,
    ⟨rfl, rfl,
      (c1_error_propagation sampleState sampleFile loadOpaque true false sampleUrl rfl).2
        opaqueImg rfl rfl⟩⟩

/-- C2 counterexample: the `ConversionResult` interface has no loss flags —
its fields are exactly `url` and `format`, so no `alphaDropped` field exists;
and at a concrete pair of runs, encoding a 1x1 raster with a pixel of alpha
128 to JPEG stores a result identical to the one stored for a fully opaque
raster: nothing in the result records the alpha loss. -/
theorem c2_counterexample :
    "alphaDropped" ∉ conversionResultFields ∧
    (convertImage jpegState loadAlpha true true sampleUrl).state.convertedImage =
      (convertImage jpegState loadOpaque true true sampleUrl).state.convertedImage ∧
    (convertImage jpegState loadAlpha true true sampleUrl).state.convertedImage =
      some { url := sampleUrl { width := 1, height := 1, format := ImageFormat.jpeg },
             format := ImageFormat.jpeg } :=
  ⟨by decide, rfl, rfl⟩

/-- C2 amended: a `ConversionResult` carries only the blob URL and the target
format — no applied-loss flags.  In particular the stored result is a
function of the raster's dimensions alone: two decoded rasters of equal
dimensions (for example one containing a pixel with alpha < 255 and one fully
opaque, encoded to JPEG) produce identical results, so no `alphaDropped`
information is ever set or reported. -/
theorem c2_no_loss_flags (s : AppState) (f : SourceFile) (img1 img2 : Img)
    (ctxOk : Bool) (urlOf : Blob → String)
    (hf : s.selectedFile = some f) (hw : img1.width = img2.width)
    (hh : img1.height = img2.height) :
    (convertImage s (fun _ => Except.ok img1) ctxOk true urlOf).state.convertedImage =
      (convertImage s (fun _ => Except.ok img2) ctxOk true urlOf).state.convertedImage ∧
    (convertImage s (fun _ => Except.ok img1) ctxOk true urlOf).state.convertedImage =
      some { url := urlOf { width := img1.width, height := img1.height,
                            format := s.targetFormat },
             format := s.targetFormat } := by
  rw [convertImage_eq_run s f (fun _ => Except.ok img1) ctxOk true urlOf hf,
    convertImage_eq_run s f (fun _ => Except.ok img2) ctxOk true urlOf hf]
  simp [runPipeline, canvasToBlob, Outcome.state, hw, hh]

/-- Witness for the amended C2: the opaque and the alpha-128 1x1 rasters,
encoded to JPEG, store identical results. -/
theorem c2_no_loss_flags_witness :
    jpegState.selectedFile = some sampleFile ∧
    opaqueImg.width = alphaImg.width ∧
    opaqueImg.height = alphaImg.height ∧
    ((convertImage jpegState (fun _ => Except.ok opaqueImg) true true sampleUrl).state.convertedImage =
        (convertImage jpegState (fun _ => Except.ok alphaImg) true true sampleUrl).state.convertedImage ∧
      (convertImage jpegState (fun _ => Except.ok opaqueImg) true true sampleUrl).state.convertedImage =
        some { url := sampleUrl { width := opaqueImg.width, height := opaqueImg.height,
                                  format := jpegState.targetFormat },
               format := jpegState.targetFormat }) :=
  ⟨rfl, rfl, rfl,
    c2_no_loss_flags jpegState sampleFile opaqueImg alphaImg true sampleUrl rfl rfl rfl⟩

/-- C3 counterexample: a decoded raster of 100000 x 100000 = 10^10 pixels —
a width*height*4 byte count beyond 32 bits and beyond any plausible ceiling —
is not rejected: the concrete run sizes the canvas to the full dimensions,
reaches the encoder and completes with a stored result.  No size check, no
ceiling constant, and no `RasterTooLarge`/`DimensionOverflow` rejection exist
in the code. -/
theorem c3_counterexample :
    hugeImg.width * hugeImg.height = 10000000000 ∧
    convertImage sampleState loadHuge true true sampleUrl =
      Outcome.done
        { sampleState with
            convertedImage := some
              { url := sampleUrl { width := 100000, height := 100000,
                                   format := ImageFormat.png },
                format := ImageFormat.png },
            isConverting := false }
        { width := 100000, height := 100000, drawn := some hugeImg }
        { width := 100000, height := 100000, format := ImageFormat.png } :=
  ⟨rfl, rfl⟩

/-- C3 amended: the code enforces no size ceiling.  For every decoded raster,
of any dimensions whatsoever, the pipeline proceeds to size the canvas to the
full width and height (allocating the backing buffer) and invoke the encoder
on it; the only possible continuations are encoder success or the null-blob
hang — never a size rejection. -/
theorem c3_no_size_ceiling (s : AppState) (f : SourceFile) (img : Img)
    (load : SourceFile → Except LoadEvent Img) (ctxOk blobOk : Bool) (urlOf : Blob → String)
    (hf : s.selectedFile = some f) (hl : load f = Except.ok img) :
    ∃ c : Canvas, c.width = img.width ∧ c.height = img.height ∧
      (convertImage s load ctxOk blobOk urlOf = Outcome.hung { s with isConverting := true } c ∨
        ∃ (s2 : AppState) (b : Blob),
          convertImage s load ctxOk blobOk urlOf = Outcome.done s2 c b) := by
  rw [convertImage_eq_run s f load ctxOk blobOk urlOf hf, hl]
  refine ⟨{ width := img.width, height := img.height,
            drawn := if ctxOk then some img else none }, rfl, rfl, ?_⟩
  cases blobOk with
  | false => exact Or.inl rfl
  | true => exact Or.inr ⟨_, _, rfl⟩

/-- Witness for the amended C3 at the 10^10-pixel raster. -/
theorem c3_no_size_ceiling_witness :
    sampleState.selectedFile = some sampleFile ∧
    loadHuge sampleFile = Except.ok hugeImg ∧
    ∃ c : Canvas, c.width = hugeImg.width ∧ c.height = hugeImg.height ∧
      (convertImage sampleState loadHuge true true sampleUrl =
          Outcome.hung { sampleState with isConverting := true } c ∨
        ∃ (s2 : AppState) (b : Blob),
          convertImage sampleState loadHuge true true sampleUrl = Outcome.done s2 c b) :=
  ⟨rfl, rfl, c3_no_size_ceiling sampleState sampleFile hugeImg loadHuge true true sampleUrl rfl rfl⟩

/-- C5 counterexample: decode failure on a malformed buffer and decode
failure on a recognizable-but-unsupported buffer produce the very same
observable report — the fixed generic log with the platform's bare error
event.  A report identical across failure causes cannot be the specific kind
`DecodeError::Malformed`; indeed no `DecodeError` value exists anywhere in
the program, and nothing distinguishes malformed input from any other decode
failure. -/
theorem c5_counterexample :
    (convertImage malformedState loadReject true true sampleUrl).loggedError =
      (convertImage tiffState loadReject true true sampleUrl).loggedError ∧
    (convertImage malformedState loadReject true true sampleUrl).loggedError =
      some ("Error converting image:", errorEvent) ∧
    (convertImage malformedState loadReject true true sampleUrl).state.convertedImage = none :=
  ⟨rfl, rfl, rfl⟩

/-- C5 amended: when the platform decoder rejects the selected buffer (as it
does for a buffer that is no valid image in any supported codec), no raster
is produced and the conversion stores no result: the outcome is the catch
path with the fixed generic log entry, `convertedImage` is unchanged, and a
successful outcome is impossible. -/
theorem c5_malformed_no_result (s : AppState) (f : SourceFile) (e : LoadEvent)
    (load : SourceFile → Except LoadEvent Img) (ctxOk blobOk : Bool) (urlOf : Blob → String)
    (hf : s.selectedFile = some f) (hl : load f = Except.error e) :
    convertImage s load ctxOk blobOk urlOf =
      Outcome.decodeFailed { s with isConverting := false } ("Error converting image:", e) ∧
    (convertImage s load ctxOk blobOk urlOf).state.convertedImage = s.convertedImage ∧
    ∀ (s2 : AppState) (c : Canvas) (b : Blob),
      convertImage s load ctxOk blobOk urlOf ≠ Outcome.done s2 c b := by
  rw [convertImage_eq_run s f load ctxOk blobOk urlOf hf, hl]
  exact ⟨rfl, rfl, fun s2 c b h => Outcome.noConfusion h⟩

/-- Witness for the amended C5 at the malformed file. -/
theorem c5_malformed_no_result_witness :
    malformedState.selectedFile = some malformedFile ∧
    loadReject malformedFile = Except.error errorEvent ∧
    (convertImage malformedState loadReject false true sampleUrl =
        Outcome.decodeFailed { malformedState with isConverting := false }
          ("Error converting image:", errorEvent) ∧
      (convertImage malformedState loadReject false true sampleUrl).state.convertedImage =
        malformedState.convertedImage ∧
      ∀ (s2 : AppState) (c : Canvas) (b : Blob),
        convertImage malformedState loadReject false true sampleUrl ≠ Outcome.done s2 c b) :=
  ⟨rfl, rfl,
    c5_malformed_no_result malformedState malformedFile errorEvent loadReject false true
      sampleUrl rfl rfl⟩

/-- C6 counterexample: the code never supplies a quality value to the
platform encoder — `canvas.toBlob` is called with only the callback and the
MIME type.  On the hundredths scale used by `toBlobQualityArg`, the claim's
default of 0.92 would be `some 92`; the actual argument is `none` even for
JPEG, so no 0.92 default (and no `EncodeOptions` mechanism at all) exists in
the code. -/
theorem c6_counterexample :
    toBlobQualityArg ImageFormat.jpeg = none ∧
    toBlobQualityArg ImageFormat.jpeg ≠ some 92 :=
  ⟨rfl, by decide⟩

/-- C6 amended: encoding passes no quality value for any target format: the
`canvas.toBlob` call carries no third argument, so lossy-format quality
(including any default) is left entirely to the platform encoder; the code
recognizes no `EncodeOptions`. -/
theorem c6_no_quality_argument : ∀ fmt : ImageFormat, toBlobQualityArg fmt = none :=
  fun _ => rfl

/-- Witness instantiating the amended C6 at the JPEG target. -/
theorem c6_no_quality_argument_witness : toBlobQualityArg ImageFormat.jpeg = none :=
  c6_no_quality_argument ImageFormat.jpeg

/-- C7: the download anchor names the file from the *currently selected*
`targetFormat`, not from the format stored in the conversion result.  After a
successful conversion to PNG followed by switching the selector to JPEG
(which does not clear the result), the rendered download name is
`converted.jpeg` while the blob it points to was encoded as PNG — the name no
longer corresponds to the format the result was actually encoded as. -/
theorem c7_download_name_mismatch :
    pngConvertedState.convertedImage =
      some { url := sampleUrl { width := 1, height := 1, format := ImageFormat.png },
             format := ImageFormat.png } ∧
    downloadName staleState = some "converted.jpeg" ∧
    staleState.convertedImage =
      some { url := sampleUrl { width := 1, height := 1, format := ImageFormat.png },
             format := ImageFormat.png } ∧
    ImageFormat.mimeSubpart ImageFormat.png ≠ "jpeg" :=
  ⟨rfl, rfl, rfl, by decide⟩

end ImageConverter
